import Mathlib

/-!
Verification of the SSH session service in back-rust/src/ssh_service.rs.

Strings are modelled as lists of characters (abbrev Str).  The registry,
a HashMap from the flat key string "socketId:serverId" to a session
handle, is modelled as an association list with HashMap semantics
(insert replaces, remove erases every binding of the key; the service
only ever holds one binding per key, which we track with keysNodup).

Calls into the external ssh2 library (TCP dial, handshake,
authentication, channel operations, reads) are modelled by environment
records (ConnEnv, ExecEnv, ReadResult) that fix the outcome of each
external call; the service code itself is translated line by line.
Every externally visible step (socket.emit, channel operations, timeout
changes, registry updates) is recorded in a trace of Action values, so
ordering properties of the source are ordering properties of the trace.
-/

namespace Aissh

/-- Strings are modelled as lists of characters. -/
abbrev Str := List Char

/-- Registry keys are the flat strings built by format "socketId:serverId". -/
abbrev Key := Str

/-- Builds the registry key, mirroring format in SshService::connect and
the lookups in write, resize, disconnect and exec. -/
def session_key (socketId server_id : Str) : Key :=
  socketId ++ ':' :: server_id

/-- Models the strip-leading-pattern operation of the Rust standard
library string type, as used in SshService::disconnect_all (the Lean
name is shortened from the Rust one). -/
def stripPref : Str → Str → Option Str
  | [], s => some s
  | _ :: _, [] => none
  | p :: ps, c :: cs => if p = c then stripPref ps cs else none

/-- Result values of an Exec command, mirroring Result of String, String. -/
inductive ExecResult where
  | ok (s : Str)
  | err (e : Str)
  deriving DecidableEq

/-- The command vocabulary sent to a SessionWorker (enum SshChannelCmd);
the Exec reply channel is modelled separately. -/
inductive SshChannelCmd where
  | write (data : Str)
  | resize (cols rows : Nat)
  | disconnect
  | exec (command : Str)
  deriving DecidableEq

/-- A session handle (struct SshSession): the command sender is implicit
in the model, and the shared transport session is named by an identifier. -/
structure SshSession where
  tid : Nat
  deriving DecidableEq

/-- The registry map held by SshService, as an association list. -/
abbrev Registry := List (Key × SshSession)

/-- HashMap::get on the registry. -/
def lookupR : Registry → Key → Option SshSession
  | [], _ => none
  | kv :: rest, k => if kv.1 = k then some kv.2 else lookupR rest k

/-- HashMap::remove on the registry (erases every binding of the key). -/
def removeR : Registry → Key → Registry
  | [], _ => []
  | kv :: rest, k => if kv.1 = k then removeR rest k else kv :: removeR rest k

/-- HashMap::insert on the registry (replaces any binding of the key). -/
def insertR (st : Registry) (k : Key) (v : SshSession) : Registry :=
  (k, v) :: removeR st k

/-- Whether the registry holds a binding for the key. -/
def hasKey : Registry → Key → Bool
  | [], _ => false
  | kv :: rest, k => if kv.1 = k then true else hasKey rest k

/-- The HashMap invariant: at most one binding per key. -/
def keysNodup : Registry → Bool
  | [] => true
  | kv :: rest => !hasKey rest kv.1 && keysNodup rest

/-- Every externally visible step of the service, in program order:
emissions on the socket, operations on the transport session and its
channels, timeout changes, registry updates, worker lifecycle. -/
inductive Action where
  | resolveAttempt
  | dialAttempt
  | handshakeAttempt
  | authPassword
  | authKey
  | openChannel
  | requestPty (term : Str)
  | requestPtySize (cols rows : Nat)
  | startShell
  | setSessTimeout (ms : Nat)
  | emitError (server_id msg : Str)
  | emitStatus (server_id status : Str) (msg : Option Str)
  | emitData (server_id data : Str)
  | insertRegistry (k : Key)
  | startWorker (k : Key)
  | sendCmd (k : Key) (c : SshChannelCmd)
  | transportDisconnect (tid : Nat)
  | sendEof
  | closeChannel
  | channelWrite (data : Str)
  | channelFlush
  | channelExec (command : Str)
  | channelRead
  | reply (r : ExecResult)
  deriving DecidableEq

/-- SshService::disconnect: remove the handle for the key; if one was
present, send it a Disconnect command and disconnect its transport
session directly.  On an absent key nothing happens. -/
def disconnect (st : Registry) (socketId server_id : Str) : Registry × List Action :=
  let key := session_key socketId server_id
  match lookupR st key with
  | some s => (removeR st key, [.sendCmd key .disconnect, .transportDisconnect s.tid])
  | none => (st, [])

/-- SshService::write: look up the handle and enqueue a Write command;
silently does nothing on an absent key.  The registry is never touched. -/
def write (st : Registry) (socketId server_id data : Str) : List Action :=
  match lookupR st (session_key socketId server_id) with
  | some _ => [.sendCmd (session_key socketId server_id) (.write data)]
  | none => []

/-- SshService::resize: look up the handle and enqueue a Resize command;
silently does nothing on an absent key.  The registry is never touched. -/
def resize (st : Registry) (socketId server_id : Str) (cols rows : Nat) : List Action :=
  match lookupR st (session_key socketId server_id) with
  | some _ => [.sendCmd (session_key socketId server_id) (.resize cols rows)]
  | none => []

/-- SshService::disconnect_all: collect the server ids of every key with
the prefix "socketId:", then disconnect each. -/
def disconnect_all (st : Registry) (socketId : Str) : Registry × List Action :=
  let server_ids := st.filterMap (fun kv => stripPref (socketId ++ [':']) kv.1)
  server_ids.foldl
    (fun acc sid =>
      let r := disconnect acc.1 socketId sid
      (r.1, acc.2 ++ r.2))
    (st, [])

/-- The connection configuration (struct SshConnectionConfig from the
types module; fields as read by SshService::connect and described in the
data model). -/
structure SshConnectionConfig where
  server_id : Str
  ip : Str
  port : Option Nat
  username : Str
  password : Option Str
  private_key : Option Str

/-- Decimal rendering of a number, for the host:port strings. -/
def natStr (n : Nat) : Str := (Nat.repr n).toList

/-- Outcomes of the external calls made during a connect attempt (address
resolution, TCP dial, handshake, authentication, channel setup), together
with the display text of each possible error.  The outcome of the initial
window-size request has its own field so that theorems can state whether
the code consults it. -/
structure ConnEnv where
  resolve_ok : Bool
  dial_ok : Bool
  dial_err : Str
  handshake_ok : Bool
  handshake_err : Str
  auth_ok : Bool
  auth_err : Str
  channel_ok : Bool
  channel_err : Str
  pty_ok : Bool
  pty_err : Str
  pty_size_ok : Bool
  shell_ok : Bool
  shell_err : Str
  deriving DecidableEq

/-- The channel-setup and running tail of the connect task, from the
channel_session call to the worker spawn: open a channel, request the
pty, request the initial 80 by 24 size (result discarded by the code),
start the shell, lower the session timeout to 100 ms, insert the handle
into the registry and start the worker.  Returns the trace together with
the key and handle to insert on success. -/
def channel_phase (pre : List Action) (key : Key) (server_id ip : Str)
    (env : ConnEnv) (tid : Nat) : List Action × Option (Key × SshSession) :=
  let pre2 := pre ++
    [.emitStatus server_id "connected".toList (some ("Connected to ".toList ++ ip))]
  if !env.channel_ok then
    (pre2 ++ [.openChannel,
      .emitError server_id ("Failed to create channel: ".toList ++ env.channel_err)], none)
  else if !env.pty_ok then
    (pre2 ++ [.openChannel, .requestPty "xterm-256color".toList,
      .emitError server_id ("Failed to request PTY: ".toList ++ env.pty_err)], none)
  else if !env.shell_ok then
    (pre2 ++ [.openChannel, .requestPty "xterm-256color".toList, .requestPtySize 80 24,
      .startShell,
      .emitError server_id ("Failed to start shell: ".toList ++ env.shell_err)], none)
  else
    (pre2 ++ [.openChannel, .requestPty "xterm-256color".toList, .requestPtySize 80 24,
      .startShell, .setSessTimeout 100, .insertRegistry key, .startWorker key],
     some (key, ⟨tid⟩))

/-- The blocking connect task spawned by SshService::connect: resolve the
address, dial with a 15 s timeout, set the session timeout to 15 s and
handshake, authenticate by password if one is supplied, else by in-memory
private key if one is supplied, else report the missing-credential error;
on success continue with channel_phase.  Each failure emits one ssh-error
and returns without touching the registry. -/
def connect_task (socketId : Str) (config : SshConnectionConfig) (env : ConnEnv)
    (tid : Nat) : List Action × Option (Key × SshSession) :=
  let server_id := config.server_id
  let ip := config.ip
  let port := config.port.getD 22
  let addr := ip ++ ':' :: natStr port
  let key := session_key socketId server_id
  if !env.resolve_ok then
    ([.resolveAttempt, .emitError server_id ("Invalid address: ".toList ++ addr)], none)
  else if !env.dial_ok then
    ([.resolveAttempt, .dialAttempt,
      .emitError server_id ("Connection timeout or failed (".toList ++ ip ++ ':' ::
        natStr port ++ "): ".toList ++ env.dial_err)], none)
  else if !env.handshake_ok then
    ([.resolveAttempt, .dialAttempt, .setSessTimeout 15000, .handshakeAttempt,
      .emitError server_id ("SSH handshake failed (".toList ++ ip ++ ':' ::
        natStr port ++ "): ".toList ++ env.handshake_err)], none)
  else
    let pre := [.resolveAttempt, .dialAttempt, .setSessTimeout 15000, .handshakeAttempt]
    match config.password, config.private_key with
    | some _, _ =>
      if !env.auth_ok then
        (pre ++ [.authPassword,
          .emitError server_id ("Authentication failed: ".toList ++ env.auth_err ++
            ". Please check your credentials.".toList)], none)
      else
        channel_phase (pre ++ [.authPassword]) key server_id ip env tid
    | none, some _ =>
      if !env.auth_ok then
        (pre ++ [.authKey,
          .emitError server_id ("Private key authentication failed: ".toList ++
            env.auth_err)], none)
      else
        channel_phase (pre ++ [.authKey]) key server_id ip env tid
    | none, none =>
      (pre ++ [.emitError server_id "No authentication method provided".toList], none)

/-- SshService::connect: synchronously disconnect any existing session
under the key, then run the connect task; on success the produced handle
is inserted (the insert happens inside the task, between the timeout
change and the worker spawn, as recorded in the trace). -/
def connect (st : Registry) (socketId : Str) (config : SshConnectionConfig)
    (env : ConnEnv) (tid : Nat) : Registry × List Action :=
  let d := disconnect st socketId config.server_id
  let t := connect_task socketId config env tid
  match t.2 with
  | some kv => (insertR d.1 kv.1 kv.2, d.2 ++ t.1)
  | none => (d.1, d.2 ++ t.1)

/-- The authentication action a connect with the given config attempts:
the code tries the password whenever one is supplied and only otherwise
the in-memory private key. -/
def auth_action (config : SshConnectionConfig) : Action :=
  if config.password.isSome then .authPassword else .authKey

/-- A connect attempt succeeds exactly when every phase up to the shell
start succeeds and a credential is present.  The initial window-size
request does not appear: the code discards its result. -/
def connect_succeeds (config : SshConnectionConfig) (env : ConnEnv) : Bool :=
  env.resolve_ok && env.dial_ok && env.handshake_ok &&
  (config.password.isSome || config.private_key.isSome) && env.auth_ok &&
  env.channel_ok && env.pty_ok && env.shell_ok

/-- UTF-8 continuation byte. -/
def isCont (b : Nat) : Bool := 0x80 ≤ b && b ≤ 0xBF

/-- Admissible second byte of a three-byte UTF-8 sequence headed by b. -/
def cont3 (b b2 : Nat) : Bool :=
  if b = 0xE0 then 0xA0 ≤ b2 && b2 ≤ 0xBF
  else if b = 0xED then 0x80 ≤ b2 && b2 ≤ 0x9F
  else isCont b2

/-- Admissible second byte of a four-byte UTF-8 sequence headed by b. -/
def cont4 (b b2 : Nat) : Bool :=
  if b = 0xF0 then 0x90 ≤ b2 && b2 ≤ 0xBF
  else if b = 0xF4 then 0x80 ≤ b2 && b2 ≤ 0x8F
  else isCont b2

/-- Models the lossy UTF-8 decoding of the Rust standard library used on
the bytes read from the shell channel: valid scalar sequences decode to
their character, each maximal invalid subpart is replaced by U+FFFD, and
the function is total (decoding never fails). -/
def from_utf8_lossy : List Nat → Str
  | [] => []
  | b :: rest =>
    if b ≤ 0x7F then Char.ofNat b :: from_utf8_lossy rest
    else if 0xC2 ≤ b && b ≤ 0xDF then
      match rest with
      | [] => ['�']
      | b2 :: rest2 =>
        if isCont b2 then
          Char.ofNat ((b - 0xC0) * 64 + (b2 - 0x80)) :: from_utf8_lossy rest2
        else '�' :: from_utf8_lossy (b2 :: rest2)
    else if 0xE0 ≤ b && b ≤ 0xEF then
      match rest with
      | [] => ['�']
      | [b2] => if cont3 b b2 then ['�'] else '�' :: from_utf8_lossy [b2]
      | b2 :: b3 :: rest3 =>
        if cont3 b b2 then
          if isCont b3 then
            Char.ofNat ((b - 0xE0) * 4096 + (b2 - 0x80) * 64 + (b3 - 0x80)) ::
              from_utf8_lossy rest3
          else '�' :: from_utf8_lossy (b3 :: rest3)
        else '�' :: from_utf8_lossy (b2 :: b3 :: rest3)
    else if 0xF0 ≤ b && b ≤ 0xF4 then
      match rest with
      | [] => ['�']
      | [b2] => if cont4 b b2 then ['�'] else '�' :: from_utf8_lossy [b2]
      | [b2, b3] =>
        if cont4 b b2 then
          if isCont b3 then ['�'] else '�' :: from_utf8_lossy [b3]
        else '�' :: from_utf8_lossy [b2, b3]
      | b2 :: b3 :: b4 :: rest4 =>
        if cont4 b b2 then
          if isCont b3 then
            if isCont b4 then
              Char.ofNat ((b - 0xF0) * 262144 + (b2 - 0x80) * 4096 +
                (b3 - 0x80) * 64 + (b4 - 0x80)) :: from_utf8_lossy rest4
            else '�' :: from_utf8_lossy (b4 :: rest4)
          else '�' :: from_utf8_lossy (b3 :: b4 :: rest4)
        else '�' :: from_utf8_lossy (b2 :: b3 :: b4 :: rest4)
    else '�' :: from_utf8_lossy rest

/-- State the worker sees of its transport session: the current read
timeout in milliseconds (100 ms once the worker is running). -/
structure WorkerState where
  sessTimeout : Nat
  deriving DecidableEq

/-- Outcomes of the three external calls made while handling one Exec
command: opening the command channel, starting the command, and reading
its full output. -/
structure ExecEnv where
  channel_ok : Bool
  channel_err : Str
  exec_ok : Bool
  exec_err : Str
  read_ok : Bool
  read_err : Str
  output : Str
  deriving DecidableEq

/-- The value sent on the Exec reply channel: the inner closure of the
Exec arm, short-circuiting on the first failed call. -/
def exec_body (env : ExecEnv) : ExecResult :=
  if !env.channel_ok then .err env.channel_err
  else if !env.exec_ok then .err env.exec_err
  else if !env.read_ok then .err env.read_err
  else .ok env.output

/-- The channel operations attempted by the inner closure of the Exec
arm, in order, stopping at the first failure. -/
def exec_trace (env : ExecEnv) (command : Str) : List Action :=
  if !env.channel_ok then [.openChannel]
  else if !env.exec_ok then [.openChannel, .channelExec command]
  else [.openChannel, .channelExec command, .channelRead]

/-- One arm of the drain phase of the worker loop: the effect of a single
received command on the worker, its trace, and whether the loop exits.
The Exec arm saves the session timeout, raises it to 60 s, runs the
command, restores the saved value and then resolves the reply channel;
its failures never exit the loop. -/
def handle_cmd (env : ExecEnv) (ws : WorkerState) :
    SshChannelCmd → WorkerState × List Action × Bool
  | .write data => (ws, [.channelWrite data, .channelFlush], false)
  | .resize cols rows => (ws, [.requestPtySize cols rows], false)
  | .disconnect => (ws, [], true)
  | .exec command =>
    let prev := ws.sessTimeout
    let ws1 : WorkerState := { ws with sessTimeout := 60000 }
    let ws2 : WorkerState := { ws1 with sessTimeout := prev }
    (ws2,
     .setSessTimeout 60000 :: exec_trace env command ++
       [.setSessTimeout prev, .reply (exec_body env)],
     false)

/-- Outcome of the bounded-timeout read of the shell channel in the poll
phase of the worker loop. -/
inductive ReadResult where
  | bytes (bs : List Nat)
  | timedOut
  | wouldBlock
  | ioError (e : Str)

/-- The poll phase of the worker loop: a zero-byte read exits the loop
(EOF), a nonempty read emits one ssh-data notification with the lossily
decoded text, a timeout or would-block error does nothing, and any other
read error exits the loop. -/
def poll_step (server_id : Str) : ReadResult → List Action × Bool
  | .bytes [] => ([], true)
  | .bytes (b :: bs) => ([.emitData server_id (from_utf8_lossy (b :: bs))], false)
  | .timedOut => ([], false)
  | .wouldBlock => ([], false)
  | .ioError _ => ([], true)

/-- The cleanup run exactly once when the worker loop exits: send EOF and
close the shell channel, disconnect the transport session, remove the
registry entry, and emit a disconnected status with no message. -/
def worker_exit (reg : Registry) (key : Key) (server_id : Str) (tid : Nat) :
    Registry × List Action :=
  (removeR reg key,
   [.sendEof, .closeChannel, .transportDisconnect tid,
    .emitStatus server_id "disconnected".toList none])

/-- What the owning worker does with a posted Exec command: the worker
may already be gone (the command channel is closed, so the send fails),
it may exit with the command still queued or in flight (the reply
channel is dropped unresolved, so the receive fails), or it may resolve
the reply channel with the execution result. -/
inductive WorkerFate where
  | down
  | dropsReply
  | replies (r : ExecResult)

/-- SshService::exec: look up the handle under the key; if none, fail
with the session-not-found error; otherwise post an Exec command and
block on the reply channel, turning a failed send or a dropped reply
channel into an explicit failure carrying the display text of the
standard-library channel error.  Total by construction: every branch
returns a value, so the call never hangs. -/
def exec_call (st : Registry) (socketId server_id command : Str)
    (fate : WorkerFate) : ExecResult :=
  match lookupR st (session_key socketId server_id) with
  | none => .err "Session not found".toList
  | some _ =>
    match fate with
    | .down => .err "sending on a closed channel".toList
    | .dropsReply => .err "receiving on an empty and disconnected channel".toList
    | .replies r => r

/-- Whether an action is an ssh-error emission. -/
def Action.isEmitError : Action → Bool
  | .emitError _ _ => true
  | _ => false

/-- Whether an action is a status emission with the given status text. -/
def Action.isStatus (status : Str) : Action → Bool
  | .emitStatus _ s _ => s = status
  | _ => false

/-- Whether an action is the shell start. -/
def Action.isStartShell : Action → Bool
  | .startShell => true
  | _ => false

/-- Whether an action is a registry insert. -/
def Action.isInsert : Action → Bool
  | .insertRegistry _ => true
  | _ => false

/-- Whether an action is a worker start. -/
def Action.isStartWorker : Action → Bool
  | .startWorker _ => true
  | _ => false

/-- Whether an action resolves an Exec reply channel. -/
def Action.isReply : Action → Bool
  | .reply _ => true
  | _ => false

/-- Whether the first string occurs at the start of the second. -/
def prefOf : Str → Str → Bool
  | [], _ => true
  | _ :: _, [] => false
  | a :: as, b :: bs => if a = b then prefOf as bs else false

/-- Whether the first string occurs as a contiguous substring of the
second (the containment predicate of the spec scenarios). -/
def containsSub (needle hay : Str) : Bool :=
  hay.tails.any (prefOf needle)

/-- Sample client id used to evaluate the theorems on concrete inputs. -/
def c0 : Str := "c1".toList

/-- Sample configuration with a password credential. -/
def cfg0 : SshConnectionConfig :=
  { server_id := "srv".toList, ip := "10.0.0.5".toList, port := none,
    username := "root".toList, password := some "pw".toList, private_key := none }

/-- Sample configuration authenticating with an in-memory private key. -/
def cfgKey : SshConnectionConfig :=
  { server_id := "srv".toList, ip := "10.0.0.5".toList, port := none,
    username := "root".toList, password := none,
    private_key := some "KEYMATERIAL".toList }

/-- Sample configuration with no credential at all. -/
def cfgNoCred : SshConnectionConfig :=
  { server_id := "srv".toList, ip := "10.0.0.5".toList, port := none,
    username := "root".toList, password := none, private_key := none }

/-- Environment in which every external call succeeds. -/
def envAllOk : ConnEnv :=
  { resolve_ok := true, dial_ok := true, dial_err := [],
    handshake_ok := true, handshake_err := [],
    auth_ok := true, auth_err := [],
    channel_ok := true, channel_err := [],
    pty_ok := true, pty_err := [],
    pty_size_ok := true, shell_ok := true, shell_err := [] }

/-- Environment in which only the initial window-size request fails. -/
def envPtySizeFail : ConnEnv := { envAllOk with pty_size_ok := false }

/-- Environment in which the TCP dial fails. -/
def envDialFail : ConnEnv := { envAllOk with dial_ok := false, dial_err := "refused".toList }

/-- Environment in which starting the shell fails. -/
def envShellFail : ConnEnv := { envAllOk with shell_ok := false, shell_err := "boom".toList }

/-- Sample registry entry for the sample key, and a second entry owned by
another client. -/
def reg0 : Registry :=
  [(session_key c0 "srv".toList, ⟨3⟩), (session_key "c2".toList "srv".toList, ⟨4⟩)]

/-- Sample Exec environment in which every call succeeds. -/
def execEnvOk : ExecEnv :=
  { channel_ok := true, channel_err := [], exec_ok := true, exec_err := [],
    read_ok := true, read_err := [], output := "hi\n".toList }

/-- The step folded by disconnect_all over the collected server ids, as a
named function so the fold can be reasoned about. -/
def dAllStep (socketId : Str) (acc : Registry × List Action) (sid : Str) :
    Registry × List Action :=
  let r := disconnect acc.1 socketId sid
  (r.1, acc.2 ++ r.2)

theorem lookupR_removeR (st : Registry) (k k' : Key) :
    lookupR (removeR st k) k' = if k' = k then none else lookupR st k' := by
  induction st with
  | nil => simp [removeR, lookupR]
  | cons kv rest ih =>
    simp only [removeR]
    by_cases h1 : kv.1 = k
    · rw [if_pos h1, ih]
      by_cases h2 : k' = k
      · simp [h2]
      · have h3 : ¬ kv.1 = k' := by rw [h1]; intro hc; exact h2 hc.symm
        simp [lookupR, h2, h3]
    · rw [if_neg h1]
      by_cases h3 : kv.1 = k'
      · have h2 : ¬ k' = k := by intro hc; exact h1 (by rw [h3, hc])
        simp [lookupR, h3, h2]
      · simp [lookupR, h3, ih]

theorem removeR_of_hasKey_false (st : Registry) (k : Key) :
    hasKey st k = false → removeR st k = st := by
  induction st with
  | nil => intro _; rfl
  | cons kv rest ih =>
    intro h
    simp only [hasKey] at h
    by_cases h1 : kv.1 = k
    · rw [if_pos h1] at h; exact absurd h (by simp)
    · rw [if_neg h1] at h
      simp only [removeR, if_neg h1]
      rw [ih h]

theorem hasKey_removeR_mono (st : Registry) (k k' : Key) :
    hasKey (removeR st k) k' = true → hasKey st k' = true := by
  induction st with
  | nil => intro h; exact h
  | cons kv rest ih =>
    intro h
    simp only [removeR] at h
    by_cases h1 : kv.1 = k
    · rw [if_pos h1] at h
      simp only [hasKey]
      by_cases h3 : kv.1 = k'
      · rw [if_pos h3]
      · rw [if_neg h3]; exact ih h
    · rw [if_neg h1] at h
      simp only [hasKey] at h ⊢
      by_cases h3 : kv.1 = k'
      · rw [if_pos h3]
      · rw [if_neg h3] at h ⊢; exact ih h

theorem hasKey_removeR_self (st : Registry) (k : Key) :
    hasKey (removeR st k) k = false := by
  induction st with
  | nil => rfl
  | cons kv rest ih =>
    by_cases h1 : kv.1 = k <;> simp [removeR, h1, hasKey, ih]

theorem keysNodup_removeR (st : Registry) (k : Key) :
    keysNodup st = true → keysNodup (removeR st k) = true := by
  induction st with
  | nil => intro _; rfl
  | cons kv rest ih =>
    intro h
    simp only [keysNodup, Bool.and_eq_true, Bool.not_eq_true'] at h
    by_cases h1 : kv.1 = k
    · simp only [removeR, if_pos h1]; exact ih h.2
    · simp only [removeR, if_neg h1, keysNodup, Bool.and_eq_true, Bool.not_eq_true']
      refine ⟨?_, ih h.2⟩
      cases hh : hasKey (removeR rest k) kv.1
      · rfl
      · exact absurd (hasKey_removeR_mono rest k kv.1 hh) (by simp [h.1])

theorem keysNodup_insertR (st : Registry) (k : Key) (v : SshSession) :
    keysNodup st = true → keysNodup (insertR st k v) = true := by
  intro h
  simp only [insertR, keysNodup, Bool.and_eq_true, Bool.not_eq_true']
  exact ⟨hasKey_removeR_self st k, keysNodup_removeR st k h⟩

theorem lookupR_eq_none_iff (st : Registry) (k : Key) :
    lookupR st k = none ↔ hasKey st k = false := by
  induction st with
  | nil => simp [lookupR, hasKey]
  | cons kv rest ih => by_cases h1 : kv.1 = k <;> simp [lookupR, hasKey, h1, ih]

theorem length_removeR (st : Registry) (k : Key) :
    ∀ s : SshSession, keysNodup st = true → lookupR st k = some s →
      (removeR st k).length + 1 = st.length := by
  induction st with
  | nil => intro s _ h; simp [lookupR] at h
  | cons kv rest ih =>
    intro s hnd h
    simp only [keysNodup, Bool.and_eq_true, Bool.not_eq_true'] at hnd
    by_cases h1 : kv.1 = k
    · simp only [removeR, if_pos h1]
      rw [removeR_of_hasKey_false rest k (h1 ▸ hnd.1)]
      simp
    · simp only [lookupR, if_neg h1] at h
      simp only [removeR, if_neg h1, List.length_cons]
      rw [ih s hnd.2 h]

theorem lookupR_some_mem (st : Registry) (k : Key) :
    ∀ s : SshSession, lookupR st k = some s → (k, s) ∈ st := by
  induction st with
  | nil => intro s h; simp [lookupR] at h
  | cons kv rest ih =>
    intro s h
    simp only [lookupR] at h
    by_cases h1 : kv.1 = k
    · rw [if_pos h1] at h
      obtain ⟨a, b⟩ := kv
      injection h with h2
      have h1' : a = k := h1
      have h2' : b = s := h2
      subst h1'
      subst h2'
      exact List.mem_cons_self _ _
    · rw [if_neg h1] at h
      exact List.mem_cons_of_mem _ (ih s h)

theorem stripPref_append (p v : Str) : stripPref p (p ++ v) = some v := by
  induction p with
  | nil => rfl
  | cons a as ih => simp [stripPref, ih]

theorem stripPref_eq_some (p : Str) :
    ∀ s v : Str, stripPref p s = some v → s = p ++ v := by
  induction p with
  | nil =>
    intro s v h
    simp only [stripPref, Option.some.injEq] at h
    simp [h]
  | cons a as ih =>
    intro s v h
    cases s with
    | nil => simp [stripPref] at h
    | cons b bs =>
      simp only [stripPref] at h
      by_cases hab : a = b
      · rw [if_pos hab] at h
        subst hab
        rw [List.cons_append, ih bs v h]
      · rw [if_neg hab] at h; exact absurd h (by simp)

theorem session_key_eq_append (c v : Str) : session_key c v = (c ++ [':']) ++ v := by
  simp [session_key, List.append_assoc]

theorem session_key_inj (c a b : Str) :
    session_key c a = session_key c b → a = b := by
  intro h
  simp only [session_key] at h
  have h2 := List.append_cancel_left h
  injection h2

theorem lookupR_disconnect (st : Registry) (c sid k : Str) :
    lookupR (disconnect st c sid).1 k =
      if k = session_key c sid then none else lookupR st k := by
  simp only [disconnect]
  cases hl : lookupR st (session_key c sid) with
  | none =>
    simp only []
    by_cases h2 : k = session_key c sid
    · simp [h2, hl]
    · simp [h2]
  | some s => simp [lookupR_removeR]

theorem keysNodup_disconnect (st : Registry) (c sid : Str) :
    keysNodup st = true → keysNodup (disconnect st c sid).1 = true := by
  intro h
  simp only [disconnect]
  cases hl : lookupR st (session_key c sid) with
  | none => simpa using h
  | some s => simpa using keysNodup_removeR st (session_key c sid) h

theorem lookupR_dAll_none (c : Str) (sids : List Str) :
    ∀ (st : Registry) (tr : List Action) (k : Key), lookupR st k = none →
      lookupR ((sids.foldl (dAllStep c) (st, tr)).1) k = none := by
  induction sids with
  | nil => intro st tr k h; exact h
  | cons sid rest ih =>
    intro st tr k h
    simp only [List.foldl_cons]
    rw [show dAllStep c (st, tr) sid =
      ((disconnect st c sid).1, tr ++ (disconnect st c sid).2) from rfl]
    apply ih
    rw [lookupR_disconnect]
    by_cases h2 : k = session_key c sid <;> simp [h2, h]

theorem mem_dAll_trace (c : Str) (sids : List Str) :
    ∀ (st : Registry) (tr : List Action) (a : Action), a ∈ tr →
      a ∈ (sids.foldl (dAllStep c) (st, tr)).2 := by
  induction sids with
  | nil => intro st tr a h; exact h
  | cons sid rest ih =>
    intro st tr a h
    simp only [List.foldl_cons]
    rw [show dAllStep c (st, tr) sid =
      ((disconnect st c sid).1, tr ++ (disconnect st c sid).2) from rfl]
    exact ih _ _ a (List.mem_append_left _ h)

theorem dAll_disconnects (c : Str) (sids : List Str) :
    ∀ (st : Registry) (tr : List Action) (sid : Str) (s : SshSession),
      sid ∈ sids → lookupR st (session_key c sid) = some s →
      Action.transportDisconnect s.tid ∈ (sids.foldl (dAllStep c) (st, tr)).2 := by
  induction sids with
  | nil => intro st tr sid s h _; simp at h
  | cons sid0 rest ih =>
    intro st tr sid s hmem hl
    simp only [List.foldl_cons]
    rw [show dAllStep c (st, tr) sid0 =
      ((disconnect st c sid0).1, tr ++ (disconnect st c sid0).2) from rfl]
    by_cases he : session_key c sid = session_key c sid0
    · have hl0 : lookupR st (session_key c sid0) = some s := by rw [← he]; exact hl
      have htr : Action.transportDisconnect s.tid ∈ (disconnect st c sid0).2 := by
        simp [disconnect, hl0]
      exact mem_dAll_trace c rest _ _ _ (List.mem_append_right _ htr)
    · have hsid : sid ∈ rest := by
        cases hmem with
        | head => exact absurd rfl he
        | tail _ h => exact h
      apply ih _ _ sid s hsid
      rw [lookupR_disconnect, if_neg he]
      exact hl

theorem lookupR_dAll_not_mem (c : Str) (sids : List Str) :
    ∀ (st : Registry) (tr : List Action) (k : Key),
      (∀ sid ∈ sids, k ≠ session_key c sid) →
      lookupR ((sids.foldl (dAllStep c) (st, tr)).1) k = lookupR st k := by
  induction sids with
  | nil => intro st tr k _; rfl
  | cons sid0 rest ih =>
    intro st tr k h
    simp only [List.foldl_cons]
    rw [show dAllStep c (st, tr) sid0 =
      ((disconnect st c sid0).1, tr ++ (disconnect st c sid0).2) from rfl]
    rw [ih _ _ k (fun sid hs => h sid (List.mem_cons_of_mem _ hs))]
    rw [lookupR_disconnect, if_neg (h sid0 (List.mem_cons_self _ _))]

theorem lookupR_dAll_mem (c : Str) (sids : List Str) :
    ∀ (st : Registry) (tr : List Action) (k : Key) (sid : Str),
      sid ∈ sids → k = session_key c sid →
      lookupR ((sids.foldl (dAllStep c) (st, tr)).1) k = none := by
  induction sids with
  | nil => intro st tr k sid h _; simp at h
  | cons sid0 rest ih =>
    intro st tr k sid hmem hk
    simp only [List.foldl_cons]
    rw [show dAllStep c (st, tr) sid0 =
      ((disconnect st c sid0).1, tr ++ (disconnect st c sid0).2) from rfl]
    by_cases he : k = session_key c sid0
    · apply lookupR_dAll_none
      rw [lookupR_disconnect, if_pos he]
    · have hsid : sid ∈ rest := by
        cases hmem with
        | head => exact absurd hk he
        | tail _ h => exact h
      exact ih _ _ k sid hsid hk

/-- C8: for every client, disconnect_all disconnects and removes exactly
the registry entries whose session key belongs to that client (the keys
with the prefix "socketId:"), and leaves the entry under every other key
unchanged. -/
theorem disconnect_all_exact (st : Registry) (socketId : Str) :
    (∀ k : Key, (stripPref (socketId ++ [':']) k).isSome = true →
      lookupR (disconnect_all st socketId).1 k = none) ∧
    (∀ k : Key, stripPref (socketId ++ [':']) k = none →
      lookupR (disconnect_all st socketId).1 k = lookupR st k) ∧
    (∀ (k : Key) (s : SshSession), lookupR st k = some s →
      (stripPref (socketId ++ [':']) k).isSome = true →
      Action.transportDisconnect s.tid ∈ (disconnect_all st socketId).2) := by
  have hdef : disconnect_all st socketId =
      (st.filterMap fun kv => stripPref (socketId ++ [':']) kv.1).foldl
        (dAllStep socketId) (st, []) := rfl
  refine ⟨?_, ?_, ?_⟩
  · intro k hk
    rw [hdef]
    obtain ⟨v, hv⟩ := Option.isSome_iff_exists.mp hk
    have hkey : k = session_key socketId v := by
      rw [session_key_eq_append]; exact stripPref_eq_some _ _ _ hv
    cases hl : lookupR st k with
    | none => exact lookupR_dAll_none _ _ st [] k hl
    | some s =>
      refine lookupR_dAll_mem _ _ st [] k v ?_ hkey
      exact List.mem_filterMap.mpr ⟨(k, s), lookupR_some_mem st k s hl, hv⟩
  · intro k hk
    rw [hdef]
    apply lookupR_dAll_not_mem
    intro sid _ hke
    rw [hke, session_key_eq_append, stripPref_append] at hk
    exact absurd hk (by simp)
  · intro k s hl hk
    rw [hdef]
    obtain ⟨v, hv⟩ := Option.isSome_iff_exists.mp hk
    have hkey : k = session_key socketId v := by
      rw [session_key_eq_append]; exact stripPref_eq_some _ _ _ hv
    refine dAll_disconnects _ _ st [] v s ?_ ?_
    · exact List.mem_filterMap.mpr ⟨(k, s), lookupR_some_mem st k s hl, hv⟩
    · rw [← hkey]; exact hl

/-- Witness for C8 at a concrete two-client registry: the client c1 entry
is removed and its transport disconnected, the client c2 entry survives. -/
theorem disconnect_all_exact_witness :
    lookupR (disconnect_all reg0 c0).1 (session_key c0 "srv".toList) = none ∧
    lookupR (disconnect_all reg0 c0).1 (session_key "c2".toList "srv".toList) =
      lookupR reg0 (session_key "c2".toList "srv".toList) ∧
    Action.transportDisconnect 3 ∈ (disconnect_all reg0 c0).2 :=
  ⟨(disconnect_all_exact reg0 c0).1 _ (by decide),
   (disconnect_all_exact reg0 c0).2.1 _ (by decide),
   (disconnect_all_exact reg0 c0).2.2 (session_key c0 "srv".toList) ⟨3⟩
     (by decide) (by decide)⟩

/-- C9: on a key with no live session, write, resize and disconnect are
silent no-ops: write and resize perform no action at all (they never
modify the registry by construction, and in particular emit no error),
and disconnect returns the registry unchanged with no action. -/
theorem absent_key_noop (st : Registry) (socketId server_id data : Str)
    (cols rows : Nat) (h : lookupR st (session_key socketId server_id) = none) :
    write st socketId server_id data = [] ∧
    resize st socketId server_id cols rows = [] ∧
    disconnect st socketId server_id = (st, []) := by
  refine ⟨?_, ?_, ?_⟩ <;> simp [write, resize, disconnect, h]

/-- Witness for C9 on the empty registry. -/
theorem absent_key_noop_witness :
    write [] c0 "srv".toList "ls".toList = [] ∧
    resize [] c0 "srv".toList 80 24 = [] ∧
    disconnect [] c0 "srv".toList = ([], []) :=
  absent_key_noop [] c0 "srv".toList "ls".toList 80 24 (by decide)

/-- C6: handling an Exec command raises the session read timeout to 60 s
as its first step, restores the previous value afterwards in every
outcome — the restore is the second-to-last step, before the reply,
whatever the body did — leaves the worker timeout equal to the previous
value, and never exits the worker loop, whether the command channel
open, the command start or the output read failed or everything
succeeded. -/
theorem exec_timeout_restored (env : ExecEnv) (ws : WorkerState) (command : Str) :
    (handle_cmd env ws (.exec command)).1.sessTimeout = ws.sessTimeout ∧
    (handle_cmd env ws (.exec command)).2.2 = false ∧
    (handle_cmd env ws (.exec command)).2.1 =
      .setSessTimeout 60000 :: exec_trace env command ++
        [.setSessTimeout ws.sessTimeout, .reply (exec_body env)] :=
  ⟨rfl, rfl, rfl⟩

/-- C4: the poll phase: a zero-byte read exits the loop, and the exit
cleanup emits a disconnected status and removes exactly one registry
entry; a read of one or more bytes emits one data notification tagged
with the server id, carrying the total lossy decoding of the bytes
(undecodable bytes such as 0xFF become U+FFFD rather than failing); a
timeout or would-block read is a no-op and the loop continues; any other
read error exits the loop. -/
theorem poll_phase_spec :
    (∀ sid : Str, poll_step sid (.bytes []) = ([], true)) ∧
    (∀ (sid : Str) (b : Nat) (bs : List Nat),
      poll_step sid (.bytes (b :: bs)) =
        ([.emitData sid (from_utf8_lossy (b :: bs))], false)) ∧
    (∀ sid : Str, poll_step sid .timedOut = ([], false) ∧
      poll_step sid .wouldBlock = ([], false)) ∧
    (∀ sid e : Str, poll_step sid (.ioError e) = ([], true)) ∧
    from_utf8_lossy [0xFF, 0x68, 0x69] = '�' :: "hi".toList ∧
    (∀ (reg : Registry) (key : Key) (sid : Str) (tid : Nat) (s : SshSession),
      keysNodup reg = true → lookupR reg key = some s →
      (worker_exit reg key sid tid).1.length + 1 = reg.length ∧
      lookupR (worker_exit reg key sid tid).1 key = none ∧
      (∀ k : Key, k ≠ key →
        lookupR (worker_exit reg key sid tid).1 k = lookupR reg k) ∧
      (worker_exit reg key sid tid).2 =
        [.sendEof, .closeChannel, .transportDisconnect tid,
         .emitStatus sid "disconnected".toList none]) := by
  refine ⟨fun _ => rfl, fun _ _ _ => rfl, fun _ => ⟨rfl, rfl⟩, fun _ _ => rfl,
    by decide, ?_⟩
  intro reg key sid tid s hnd hl
  refine ⟨length_removeR reg key s hnd hl, ?_, ?_, rfl⟩
  · rw [show (worker_exit reg key sid tid).1 = removeR reg key from rfl,
      lookupR_removeR, if_pos rfl]
  · intro k hk
    rw [show (worker_exit reg key sid tid).1 = removeR reg key from rfl,
      lookupR_removeR, if_neg hk]

/-- Witness for C4 on a concrete registry: the EOF exit removes exactly
the one entry of the key. -/
theorem poll_phase_spec_witness :
    (worker_exit reg0 (session_key c0 "srv".toList) "srv".toList 3).1.length + 1 =
      reg0.length ∧
    lookupR (worker_exit reg0 (session_key c0 "srv".toList) "srv".toList 3).1
      (session_key c0 "srv".toList) = none :=
  ⟨(poll_phase_spec.2.2.2.2.2 reg0 (session_key c0 "srv".toList) "srv".toList 3 ⟨3⟩
      (by decide) (by decide)).1,
   (poll_phase_spec.2.2.2.2.2 reg0 (session_key c0 "srv".toList) "srv".toList 3 ⟨3⟩
      (by decide) (by decide)).2.1⟩

/-- C2: exec fails with the session-not-found error when the key has no
live session; on a live session the call resolves exactly once with the
worker outcome — the reply value when the worker replies, an explicit
failure when the worker is already gone or exits with the reply channel
dropped (so the call never hangs; the model is a total function) — and
the worker side resolves each handled Exec reply channel exactly once. -/
theorem exec_resolves (st : Registry) (socketId server_id command : Str) :
    (∀ fate, lookupR st (session_key socketId server_id) = none →
      exec_call st socketId server_id command fate =
        .err "Session not found".toList) ∧
    (∀ s : SshSession, lookupR st (session_key socketId server_id) = some s →
      (∀ r, exec_call st socketId server_id command (.replies r) = r) ∧
      exec_call st socketId server_id command .down =
        .err "sending on a closed channel".toList ∧
      exec_call st socketId server_id command .dropsReply =
        .err "receiving on an empty and disconnected channel".toList) ∧
    (∀ (env : ExecEnv) (ws : WorkerState),
      (handle_cmd env ws (.exec command)).2.1.countP Action.isReply = 1) := by
  refine ⟨?_, ?_, ?_⟩
  · intro fate h; simp [exec_call, h]
  · intro s h
    exact ⟨fun r => by simp [exec_call, h], by simp [exec_call, h],
      by simp [exec_call, h]⟩
  · intro env ws
    show (Action.setSessTimeout 60000 :: exec_trace env command ++
      [Action.setSessTimeout ws.sessTimeout, Action.reply (exec_body env)]).countP
        Action.isReply = 1
    unfold exec_trace
    split_ifs <;>
      simp [List.countP_cons, List.countP_append, List.countP_nil, Action.isReply]

/-- Witness for C2: session-not-found on the empty registry, and a live
session resolving with the reply value. -/
theorem exec_resolves_witness :
    exec_call [] c0 "srv".toList "echo hi".toList .dropsReply =
      .err "Session not found".toList ∧
    exec_call reg0 c0 "srv".toList "echo hi".toList
      (.replies (.ok "hi\n".toList)) = .ok "hi\n".toList :=
  ⟨(exec_resolves [] c0 "srv".toList "echo hi".toList).1 .dropsReply (by decide),
   ((exec_resolves reg0 c0 "srv".toList "echo hi".toList).2.1 ⟨3⟩ (by decide)).1 _⟩

/-- C1: connect first synchronously tears down any existing handle for
the key — sending it a Disconnect command, disconnecting its transport
and removing its registry binding — as the very first actions of the
trace, strictly before anything of the new connection attempt; and the
registry invariant of at most one handle per key is preserved. -/
theorem connect_single_ownership (st : Registry) (socketId : Str)
    (config : SshConnectionConfig) (env : ConnEnv) (tid : Nat)
    (hnd : keysNodup st = true) :
    keysNodup (connect st socketId config env tid).1 = true ∧
    lookupR (disconnect st socketId config.server_id).1
      (session_key socketId config.server_id) = none ∧
    (∀ s : SshSession,
      lookupR st (session_key socketId config.server_id) = some s →
      (connect st socketId config env tid).2 =
        .sendCmd (session_key socketId config.server_id) .disconnect ::
          .transportDisconnect s.tid :: (connect_task socketId config env tid).1) ∧
    (lookupR st (session_key socketId config.server_id) = none →
      (connect st socketId config env tid).2 =
        (connect_task socketId config env tid).1) := by
  refine ⟨?_, ?_, ?_, ?_⟩
  · unfold connect
    cases ht : (connect_task socketId config env tid).2 with
    | none =>
      simp only [ht]
      exact keysNodup_disconnect st socketId config.server_id hnd
    | some kv =>
      simp only [ht]
      exact keysNodup_insertR _ kv.1 kv.2
        (keysNodup_disconnect st socketId config.server_id hnd)
  · rw [lookupR_disconnect, if_pos rfl]
  · intro s h
    unfold connect
    cases ht : (connect_task socketId config env tid).2 <;>
      simp [ht, disconnect, h]
  · intro h
    unfold connect
    cases ht : (connect_task socketId config env tid).2 <;>
      simp [ht, disconnect, h]

/-- Witness for C1 on a registry already holding a handle for the key:
the teardown of that handle opens the trace, and uniqueness of keys is
preserved. -/
theorem connect_single_ownership_witness :
    keysNodup (connect reg0 c0 cfg0 envAllOk 9).1 = true ∧
    (connect reg0 c0 cfg0 envAllOk 9).2 =
      .sendCmd (session_key c0 "srv".toList) .disconnect ::
        .transportDisconnect 3 :: (connect_task c0 cfg0 envAllOk 9).1 :=
  ⟨(connect_single_ownership reg0 c0 cfg0 envAllOk 9 (by decide)).1,
   (connect_single_ownership reg0 c0 cfg0 envAllOk 9 (by decide)).2.2.1 ⟨3⟩
     (by decide)⟩

theorem channel_phase_isSome (pre : List Action) (key : Key) (server_id ip : Str)
    (env : ConnEnv) (tid : Nat) :
    (channel_phase pre key server_id ip env tid).2.isSome =
      (env.channel_ok && env.pty_ok && env.shell_ok) := by
  cases hc : env.channel_ok <;> cases hp : env.pty_ok <;> cases hs : env.shell_ok <;>
    simp [channel_phase, hc, hp, hs]

set_option maxHeartbeats 1000000 in
theorem connect_task_isSome (socketId : Str) (config : SshConnectionConfig)
    (env : ConnEnv) (tid : Nat) :
    (connect_task socketId config env tid).2.isSome = connect_succeeds config env := by
  obtain ⟨sid, ip, port, user, pw, pk⟩ := config
  obtain ⟨r, d, de, hs, he, a, ae, ch, ce, pt, pe, ps, sh, se⟩ := env
  cases pw <;> cases pk <;> cases r <;> cases d <;> cases hs <;> cases a <;>
    simp [connect_task, connect_succeeds, channel_phase_isSome]

/-- C10: connect tears the previous session under the key down before the
new attempt; if the attempt fails at any phase (resolution, dial,
handshake, missing or rejected credential, channel setup), the key is
left with no live session — the previous session is not retained. -/
theorem failed_connect_no_session (st : Registry) (socketId : Str)
    (config : SshConnectionConfig) (env : ConnEnv) (tid : Nat)
    (hfail : connect_succeeds config env = false) :
    lookupR (connect st socketId config env tid).1
      (session_key socketId config.server_id) = none := by
  have ht : (connect_task socketId config env tid).2 = none := by
    cases h2 : (connect_task socketId config env tid).2 with
    | none => rfl
    | some kv =>
      have hi := connect_task_isSome socketId config env tid
      rw [h2, hfail] at hi
      simp at hi
  unfold connect
  simp only [ht]
  rw [lookupR_disconnect, if_pos rfl]

/-- Witness for C10: a dial failure on a key that held a live session
leaves the key with no session. -/
theorem failed_connect_no_session_witness :
    lookupR (connect reg0 c0 cfg0 envDialFail 9).1
      (session_key c0 "srv".toList) = none :=
  failed_connect_no_session reg0 c0 cfg0 envDialFail 9 (by decide)

/-- C3 counterexample: on an all-success connect with the sample
configuration, a connected status is emitted strictly before the shell
start appears in the trace, refuting that connected is never emitted
before the shell is started. -/
theorem connected_before_shell_counterexample :
    ((connect_task c0 cfg0 envAllOk 7).1.takeWhile
        (fun a => !a.isStartShell)).any (Action.isStatus "connected".toList) = true ∧
    (connect_task c0 cfg0 envAllOk 7).1.any Action.isStartShell = true := by
  decide

/-- C3 amended: on every successful connect — whichever credential path
is taken, password or in-memory private key — the trace order is:
resolve, dial, set the 15 s timeout, handshake, authenticate (by
password when one is supplied, else by private key), emit the connected
status, open the session channel, request the pty, request the 80 by 24
size, start the shell, lower the read timeout to 100 ms, insert the
handle into the registry, start the worker.  The timeout lowering,
registry insert and worker start do follow a fully successful channel
setup in that order, but the connected status is emitted right after
authentication, before the channel setup and before the shell is
started. -/
theorem connect_success_order (socketId : Str) (config : SshConnectionConfig)
    (env : ConnEnv) (tid : Nat)
    (hcred : config.password.isSome = true ∨ config.private_key.isSome = true)
    (h1 : env.resolve_ok = true) (h2 : env.dial_ok = true)
    (h3 : env.handshake_ok = true) (h4 : env.auth_ok = true)
    (h5 : env.channel_ok = true) (h6 : env.pty_ok = true)
    (h7 : env.shell_ok = true) :
    (connect_task socketId config env tid).1 =
      [.resolveAttempt, .dialAttempt, .setSessTimeout 15000, .handshakeAttempt,
       auth_action config,
       .emitStatus config.server_id "connected".toList
         (some ("Connected to ".toList ++ config.ip)),
       .openChannel, .requestPty "xterm-256color".toList, .requestPtySize 80 24,
       .startShell, .setSessTimeout 100,
       .insertRegistry (session_key socketId config.server_id),
       .startWorker (session_key socketId config.server_id)] ∧
    (connect_task socketId config env tid).2 =
      some (session_key socketId config.server_id, ⟨tid⟩) := by
  cases hpw : config.password with
  | some p =>
    constructor <;>
      simp [connect_task, channel_phase, auth_action, hpw,
        h1, h2, h3, h4, h5, h6, h7]
  | none =>
    cases hpk : config.private_key with
    | some k =>
      constructor <;>
        simp [connect_task, channel_phase, auth_action, hpw, hpk,
          h1, h2, h3, h4, h5, h6, h7]
    | none =>
      rcases hcred with hc | hc
      · rw [hpw] at hc; simp at hc
      · rw [hpk] at hc; simp at hc

/-- Witness for the amended C3 at concrete inputs, one per credential
path. -/
theorem connect_success_order_witness :
    (connect_task c0 cfg0 envAllOk 7).2 =
      some (session_key c0 "srv".toList, ⟨7⟩) ∧
    (connect_task c0 cfgKey envAllOk 7).2 =
      some (session_key c0 "srv".toList, ⟨7⟩) :=
  ⟨(connect_success_order c0 cfg0 envAllOk 7 (Or.inl rfl) rfl rfl rfl rfl rfl rfl
      rfl).2,
   (connect_success_order c0 cfgKey envAllOk 7 (Or.inr rfl) rfl rfl rfl rfl rfl rfl
      rfl).2⟩

/-- C5 counterexample: in the environment where only the initial
window-size request fails, connect does not abort: no error is emitted
and the handle and worker are still created, refuting that a failure of
any channel-setup sub-step aborts the attempt. -/
theorem pty_size_failure_ignored :
    envPtySizeFail.pty_size_ok = false ∧
    (connect_task c0 cfg0 envPtySizeFail 7).2.isSome = true ∧
    (connect_task c0 cfg0 envPtySizeFail 7).1.countP Action.isEmitError = 0 := by
  decide

/-- C5 amended: for any connect reaching the channel-setup phase — a
credential present (either path) and resolution, dial, handshake and
authentication successful — a failure of the channel open, of the pty
request or of the shell start aborts the connect attempt with exactly
one error reported and no registry entry or worker created; the initial
80 by 24 size request is best effort — its outcome is never consulted
(the task is literally independent of it), so its failure does not
abort. -/
theorem channel_setup_failure_aborts (socketId : Str)
    (config : SshConnectionConfig) (env : ConnEnv) (tid : Nat)
    (hcred : config.password.isSome = true ∨ config.private_key.isSome = true)
    (h1 : env.resolve_ok = true) (h2 : env.dial_ok = true)
    (h3 : env.handshake_ok = true) (h4 : env.auth_ok = true)
    (hfail : env.channel_ok = false ∨ env.pty_ok = false ∨ env.shell_ok = false) :
    (connect_task socketId config env tid).2 = none ∧
    (connect_task socketId config env tid).1.countP Action.isEmitError = 1 ∧
    (connect_task socketId config env tid).1.countP Action.isInsert = 0 ∧
    (connect_task socketId config env tid).1.countP Action.isStartWorker = 0 ∧
    (∀ b : Bool, connect_task socketId config { env with pty_size_ok := b } tid =
      connect_task socketId config env tid) := by
  have hframe : ∀ b : Bool,
      connect_task socketId config { env with pty_size_ok := b } tid =
        connect_task socketId config env tid := fun _ => rfl
  have main : (connect_task socketId config env tid).2 = none ∧
      (connect_task socketId config env tid).1.countP Action.isEmitError = 1 ∧
      (connect_task socketId config env tid).1.countP Action.isInsert = 0 ∧
      (connect_task socketId config env tid).1.countP Action.isStartWorker = 0 := by
    cases hpw : config.password with
    | some p =>
      rcases hfail with hf | hf | hf
      · cases hpt : env.pty_ok <;> cases hs : env.shell_ok <;>
          (refine ⟨?_, ?_, ?_, ?_⟩ <;>
            simp [connect_task, channel_phase, hpw, h1, h2, h3, h4, hf, hpt, hs,
              List.countP_cons, List.countP_append, List.countP_nil,
              Action.isEmitError, Action.isInsert, Action.isStartWorker])
      · cases hc : env.channel_ok <;> cases hs : env.shell_ok <;>
          (refine ⟨?_, ?_, ?_, ?_⟩ <;>
            simp [connect_task, channel_phase, hpw, h1, h2, h3, h4, hc, hf, hs,
              List.countP_cons, List.countP_append, List.countP_nil,
              Action.isEmitError, Action.isInsert, Action.isStartWorker])
      · cases hc : env.channel_ok <;> cases hpt : env.pty_ok <;>
          (refine ⟨?_, ?_, ?_, ?_⟩ <;>
            simp [connect_task, channel_phase, hpw, h1, h2, h3, h4, hc, hpt, hf,
              List.countP_cons, List.countP_append, List.countP_nil,
              Action.isEmitError, Action.isInsert, Action.isStartWorker])
    | none =>
      cases hpk : config.private_key with
      | some k =>
        rcases hfail with hf | hf | hf
        · cases hpt : env.pty_ok <;> cases hs : env.shell_ok <;>
            (refine ⟨?_, ?_, ?_, ?_⟩ <;>
              simp [connect_task, channel_phase, hpw, hpk, h1, h2, h3, h4, hf,
                hpt, hs, List.countP_cons, List.countP_append, List.countP_nil,
                Action.isEmitError, Action.isInsert, Action.isStartWorker])
        · cases hc : env.channel_ok <;> cases hs : env.shell_ok <;>
            (refine ⟨?_, ?_, ?_, ?_⟩ <;>
              simp [connect_task, channel_phase, hpw, hpk, h1, h2, h3, h4, hc,
                hf, hs, List.countP_cons, List.countP_append, List.countP_nil,
                Action.isEmitError, Action.isInsert, Action.isStartWorker])
        · cases hc : env.channel_ok <;> cases hpt : env.pty_ok <;>
            (refine ⟨?_, ?_, ?_, ?_⟩ <;>
              simp [connect_task, channel_phase, hpw, hpk, h1, h2, h3, h4, hc,
                hpt, hf, List.countP_cons, List.countP_append, List.countP_nil,
                Action.isEmitError, Action.isInsert, Action.isStartWorker])
      | none =>
        rcases hcred with hc | hc
        · rw [hpw] at hc; simp at hc
        · rw [hpk] at hc; simp at hc
  exact ⟨main.1, main.2.1, main.2.2.1, main.2.2.2, hframe⟩

/-- Witness for the amended C5: a shell-start failure aborts with one
error and no insert, on the password path and on the private-key path. -/
theorem channel_setup_failure_aborts_witness :
    (connect_task c0 cfg0 envShellFail 7).2 = none ∧
    (connect_task c0 cfg0 envShellFail 7).1.countP Action.isEmitError = 1 ∧
    (connect_task c0 cfgKey envShellFail 7).2 = none :=
  ⟨(channel_setup_failure_aborts c0 cfg0 envShellFail 7 (Or.inl rfl) rfl rfl
      rfl rfl (Or.inr (Or.inr rfl))).1,
   (channel_setup_failure_aborts c0 cfg0 envShellFail 7 (Or.inl rfl) rfl rfl
      rfl rfl (Or.inr (Or.inr rfl))).2.1,
   (channel_setup_failure_aborts c0 cfgKey envShellFail 7 (Or.inr rfl) rfl rfl
      rfl rfl (Or.inr (Or.inr rfl))).1⟩

/-- C7 counterexample: the single error notification of a credential-less
connect carries the message "No authentication method provided", and
that message does not contain the exact string "no authentication
method" stated by the claim (the code capitalises the first word). -/
theorem no_auth_message_counterexample :
    (connect_task c0 cfgNoCred envAllOk 7).1 =
      [.resolveAttempt, .dialAttempt, .setSessTimeout 15000, .handshakeAttempt,
       .emitError "srv".toList "No authentication method provided".toList] ∧
    containsSub "no authentication method".toList
      "No authentication method provided".toList = false := by
  decide

/-- C7 amended: a connect reaching the authentication phase (resolution,
dial and handshake succeed) with a config supplying neither a password
nor a private key emits exactly one error notification, whose message is
"No authentication method provided" — so it contains the capitalised
string "No authentication method" — and creates no registry entry and no
worker. -/
theorem no_auth_method_error (socketId : Str) (config : SshConnectionConfig)
    (env : ConnEnv) (tid : Nat) (hp : config.password = none)
    (hk : config.private_key = none) (h1 : env.resolve_ok = true)
    (h2 : env.dial_ok = true) (h3 : env.handshake_ok = true) :
    (connect_task socketId config env tid).1 =
      [.resolveAttempt, .dialAttempt, .setSessTimeout 15000, .handshakeAttempt,
       .emitError config.server_id "No authentication method provided".toList] ∧
    (connect_task socketId config env tid).2 = none ∧
    containsSub "No authentication method".toList
      "No authentication method provided".toList = true := by
  refine ⟨?_, ?_, by decide⟩ <;> simp [connect_task, hp, hk, h1, h2, h3]

/-- Witness for the amended C7 at the sample credential-less config. -/
theorem no_auth_method_error_witness :
    (connect_task c0 cfgNoCred envAllOk 7).2 = none :=
  (no_auth_method_error c0 cfgNoCred envAllOk 7 rfl rfl rfl rfl rfl).2.1

end Aissh
